import Mathlib

/-!
Shallow embedding of the USPTO DSAPI search client.

`App` models `src/app.py` (the web entry point): its core coroutine
`search_uspto_dsapi`, the query construction, the form data it transmits,
the three-shape response normalization, and the `/search` route handler.
`Script` models `src/uspto_dsapi_search.py` (the interactive entry point).

Python values appearing in the code are embedded as follows: parsed JSON
bodies are the inductive `Json`; the dictionaries the functions return are
the structure `Envelope` (absent keys are `none`); Python exceptions are
`Except.error` carrying the exception text, so the `try`/`except` blocks
become matches on `Except`.  The network is an oracle
`FormData → TransportOutcome` mapping the transmitted form to the
upstream's behaviour, so "the transport is never invoked" is expressed as
independence of the result from the oracle.
-/

/-- A parsed JSON value, as returned by `resp.json()`.  Numbers are
modelled as integers, which covers every value the claims mention. -/
inductive Json where
  | null : Json
  | bool (b : Bool) : Json
  | num (n : Int) : Json
  | str (s : String) : Json
  | arr (elems : List Json) : Json
  | obj (fields : List (String × Json)) : Json

/-- Python `s.upper()` (the keywords and operators in play are ASCII). -/
def pyUpper (s : String) : String :=
  String.mk (s.toList.map Char.toUpper)

/-- The characters Python `str.strip()` removes (ASCII whitespace). -/
def isPySpace (c : Char) : Bool :=
  c == ' ' || c == '\t' || c == '\n' || c == '\r' || c == '\x0b' || c == '\x0c'

/-- Python `s.strip()` with no argument: drop leading and trailing
whitespace. -/
def pyStrip (s : String) : String :=
  String.mk (((s.toList.dropWhile isPySpace).reverse.dropWhile isPySpace).reverse)

/-- Python `len(x)`: defined for lists, strings and dicts, a `TypeError`
(here `none`) on numbers, booleans and `None`. -/
def pyLen : Json → Option Nat
  | .arr xs => some xs.length
  | .str s => some s.length
  | .obj kvs => some kvs.length
  | _ => none

/-- Python `x == key` where `key` is a string: true exactly for an equal
string; values of any other type never compare equal to a string. -/
def jsonEqStr (j : Json) (key : String) : Bool :=
  match j with
  | .str t => t == key
  | _ => false

/-- Whether the first character list occurs at the head of the second. -/
def listLeads : List Char → List Char → Bool
  | [], _ => true
  | _ :: _, [] => false
  | a :: as, b :: bs => a == b && listLeads as bs

/-- Whether the first character list occurs contiguously anywhere in the
second. -/
def listHasSub (needle : List Char) : List Char → Bool
  | [] => needle.isEmpty
  | c :: cs => listLeads needle (c :: cs) || listHasSub needle cs

/-- Python `needle in hay` for strings: contiguous substring test. -/
def strHasSub (needle hay : String) : Bool :=
  listHasSub needle.toList hay.toList

/-- Python `key in data` for a string `key`: key membership for dicts,
element equality for lists, substring test for strings, and a `TypeError`
for numbers, booleans and `None` (which are not iterable). -/
def pyContains (data : Json) (key : String) : Except String Bool :=
  match data with
  | .obj kvs => .ok (kvs.lookup key).isSome
  | .arr xs => .ok (xs.any (fun x => jsonEqStr x key))
  | .str s => .ok (strHasSub key s)
  | _ => .error "TypeError: argument is not iterable"

/-- Python `data[key]` for a string `key`: dict lookup (the guards in the
source establish the key is present); indexing a list or a string with a
string, or subscripting a scalar, is a `TypeError`. -/
def pySubscript (data : Json) (key : String) : Except String Json :=
  match data with
  | .obj kvs =>
    match kvs.lookup key with
    | some v => .ok v
    | none => .error "KeyError"
  | _ => .error "TypeError: indices must be integers"

/-- Python `data.get(key, dflt)`: defined on dicts, an `AttributeError`
on every other value. -/
def pyGet (data : Json) (key : String) (dflt : Json) : Except String Json :=
  match data with
  | .obj kvs => .ok ((kvs.lookup key).getD dflt)
  | _ => .error "AttributeError: object has no attribute get"

/-- The form-encoded fields transmitted to the upstream `records`
endpoint (`criteria`, `start`, `rows`), each a string on the wire. -/
structure FormData where
  criteria : String
  start : String
  rows : String

/-- What the network produces for a request: an HTTP response (status,
the result of `resp.json()` — `Except.error` models a body that fails to
parse — and the raw text `resp.text()` yields), or a connection-level
failure raising an exception whose `str` is `msg`. -/
inductive TransportOutcome where
  | httpResp (status : Nat) (body : Except String Json) (text : String) : TransportOutcome
  | netFail (msg : String) : TransportOutcome

/-- The dictionary `app.py`'s `search_uspto_dsapi` returns.  A field is
`none` when the corresponding key is absent from the returned dict; the
defaults give the common error-envelope shape
`{"error": ..., "results": [], "total": 0}`. -/
structure Envelope where
  error : Option String := none
  results : Json := Json.arr []
  total : Json := Json.num 0
  shown : Option Nat := none
  query : Option String := none

namespace App

/-- Lines 34–40 of `app.py`: the Lucene criteria string.  The AND join is
taken exactly when `operator.upper() == "AND"`; every other string falls
to the `else` branch, which joins with OR. -/
def buildCriteria (keywords : List String) (operator : String) : String :=
  if pyUpper operator = "AND" then
    String.intercalate " AND " (keywords.map (fun kw => "*:" ++ kw ++ "*"))
  else
    String.intercalate " OR " (keywords.map (fun kw => "*:" ++ kw ++ "*"))

/-- Lines 45–48 of `app.py`: the transmitted form fields; `rows` is
`str(min(limit, 10000))`. -/
def formOf (criteria : String) (limit : Int) : FormData :=
  { criteria := criteria, start := "0", rows := toString (min limit 10000) }

/-- Lines 67–90 of `app.py`: the three-shape normalization applied to a
parsed 200-status body, run inside the `try` block; `Except.error` is an
exception reaching the `except` handler (e.g. `len()` of an unsized
value, `.get` on a non-dict, subscripting a non-dict). -/
def normalize200 (criteria : String) (data : Json) : Except String Envelope :=
  match pyContains data "response" with
  | .error e => .error e
  | .ok true =>
    match pySubscript data "response" with
    | .error e => .error e
    | .ok r =>
      match pyGet r "docs" (Json.arr []) with
      | .error e => .error e
      | .ok docs =>
        match pyGet r "numFound" (Json.num 0) with
        | .error e => .error e
        | .ok numFound =>
          match pyLen docs with
          | some n =>
            .ok { error := none, results := docs, total := numFound,
                  shown := some n, query := some criteria }
          | none => .error "TypeError: object has no len"
  | .ok false =>
    match pyContains data "docs" with
    | .error e => .error e
    | .ok true =>
      match pySubscript data "docs" with
      | .error e => .error e
      | .ok d =>
        match pyLen d with
        | some n =>
          .ok { error := none, results := d, total := Json.num n,
                shown := some n, query := some criteria }
        | none => .error "TypeError: object has no len"
    | .ok false =>
      match data with
      | .obj _ =>
        .ok { error := none, results := Json.arr [data], total := Json.num 1,
              shown := some 1, query := some criteria }
      | _ =>
        .ok { error := none, results := Json.arr [], total := Json.num 0,
              shown := some 0, query := some criteria }

/-- Lines 61–103 of `app.py`: the `try` block around the HTTP exchange.
Status 200 parses the body and normalizes it; any other status yields the
`API Error {status}: {text}` envelope; any exception (connection failure,
unparsable body, or a type error during normalization) is caught and
yields the `Error making request: {e}` envelope. -/
def handleResponse (criteria : String) (t : TransportOutcome) : Envelope :=
  match t with
  | .netFail msg =>
    { error := some ("Error making request: " ++ msg) }
  | .httpResp status body text =>
    if status = 200 then
      match body with
      | .error msg => { error := some ("Error making request: " ++ msg) }
      | .ok data =>
        match normalize200 criteria data with
        | .ok env => env
        | .error msg => { error := some ("Error making request: " ++ msg) }
    else
      { error := some ("API Error " ++ toString status ++ ": " ++ text) }

/-- Lines 18–103 of `app.py`: `search_uspto_dsapi`.  `operator = none`
and `limit = none` model passing Python `None`; `operator.upper()` and
`min(limit, 10000)` then raise outside the `try` block, so the exception
escapes (an `Except.error` result).  The keyword check precedes both. -/
def search_uspto_dsapi (keywords : List String) (operator : Option String)
    (limit : Option Int) (upstream : FormData → TransportOutcome) :
    Except String Envelope :=
  if keywords.isEmpty then
    .ok { error := some "No keywords provided" }
  else
    match operator with
    | none => .error "AttributeError: NoneType object has no attribute upper"
    | some op =>
      let criteria := buildCriteria keywords op
      match limit with
      | none => .error "TypeError: min of int and NoneType"
      | some l => .ok (handleResponse criteria (upstream (formOf criteria l)))

/-- Lines 112–137 of `app.py`: the `/search` route.  Keywords are
stripped and empty ones dropped; when none remain the route answers
without invoking the transport. -/
def search (upstream : FormData → TransportOutcome) (keywords : List String)
    (operator : Option String) (limit : Int) : Except String Envelope :=
  let kws := (keywords.map pyStrip).filter (fun s => !s.isEmpty)
  if kws.isEmpty then
    .ok { error := some "Please provide at least one keyword" }
  else
    search_uspto_dsapi kws operator (some limit) upstream

/-- Line 118 of `app.py`: the route's default operator. -/
def defaultOperator : String := "AND"

/-- Line 119 of `app.py`: the route's default limit. -/
def defaultLimit : Int := 500

end App

namespace Script

/-- Line 28 of `uspto_dsapi_search.py`: the single-keyword criteria. -/
def criteriaOf (keyword : String) : String := "*:" ++ keyword ++ "*"

/-- Lines 33–36 of `uspto_dsapi_search.py`: the transmitted form fields;
`rows` is `str(limit)`, with no clamping. -/
def formOf (keyword : String) (limit : Int) : FormData :=
  { criteria := criteriaOf keyword, start := "0", rows := toString limit }

/-- Lines 54–65 of `uspto_dsapi_search.py`: normalization of a parsed
200-status body.  The `response` branch evaluates `len(docs)` inside the
success print, so an unsized `docs` raises; the bare `docs` branch
returns `data["docs"]` with no `len` evaluated. -/
def normalize200 (data : Json) : Except String Json :=
  match pyContains data "response" with
  | .error e => .error e
  | .ok true =>
    match pySubscript data "response" with
    | .error e => .error e
    | .ok r =>
      match pyGet r "docs" (Json.arr []) with
      | .error e => .error e
      | .ok docs =>
        match pyGet r "numFound" (Json.num 0) with
        | .error e => .error e
        | .ok _ =>
          match pyLen docs with
          | some _ => .ok docs
          | none => .error "TypeError: object has no len"
  | .ok false =>
    match pyContains data "docs" with
    | .error e => .error e
    | .ok true => pySubscript data "docs"
    | .ok false =>
      match data with
      | .obj _ => .ok (Json.arr [data])
      | _ => .ok (Json.arr [])

/-- Lines 15–72 of `uspto_dsapi_search.py`: `search_uspto_dsapi`.  Every
failure path (non-200 status, unparsable body, exception in the handler)
prints and returns the empty list; only the parsed records value is
returned, never an envelope. -/
def search_uspto_dsapi (keyword : String) (limit : Int)
    (upstream : FormData → TransportOutcome) : Json :=
  match upstream (formOf keyword limit) with
  | .netFail _ => Json.arr []
  | .httpResp status body _ =>
    if status = 200 then
      match body with
      | .error _ => Json.arr []
      | .ok data =>
        match normalize200 data with
        | .ok v => v
        | .error _ => Json.arr []
    else
      Json.arr []

/-- Lines 15 and 122 of `uspto_dsapi_search.py`: the interactive default
limit. -/
def defaultLimit : Int := 10

end Script

/-- The wildcard clause list §4.1 of the spec describes: one
`*:{keyword}*` clause per keyword, in keyword order. -/
def clauses (keywords : List String) : List String :=
  keywords.map (fun kw => "*:" ++ kw ++ "*")

/-- The operator resolution the code applies: `AND` exactly when the
operator uppercases to `"AND"`, `OR` otherwise. -/
def resolvedOp (operator : String) : String :=
  if pyUpper operator = "AND" then "AND" else "OR"

/-- Spec-side definition for the amended C2: the `(records, totalFound)`
pair the amended claim predicts for a parsed 200-status body.  It follows
the claim's branch order, with the two amendments the code forces: the
`response` branch requires `response` to be a JSON object, and a selected
`docs` value with no length (number, boolean or null) resolves to
`([], 0)` instead of being returned. -/
def specC2RecordsTotal : Json → Json × Json
  | .obj kvs =>
    match kvs.lookup "response" with
    | some (.obj rkvs) =>
      match pyLen ((rkvs.lookup "docs").getD (Json.arr [])) with
      | some _ =>
        ((rkvs.lookup "docs").getD (Json.arr []),
         (rkvs.lookup "numFound").getD (Json.num 0))
      | none => (Json.arr [], Json.num 0)
    | some _ => (Json.arr [], Json.num 0)
    | none =>
      match kvs.lookup "docs" with
      | some d =>
        match pyLen d with
        | some n => (d, Json.num n)
        | none => (Json.arr [], Json.num 0)
      | none => (Json.arr [Json.obj kvs], Json.num 1)
  | _ => (Json.arr [], Json.num 0)

/-- The `(records, totalFound)` pair a call resolves to: the envelope's
fields on success, `([], 0)` when the exception handler produced the
error envelope. -/
def recTot (r : Except String Envelope) : Json × Json :=
  match r with
  | .ok env => (env.results, env.total)
  | .error _ => (Json.arr [], Json.num 0)


/-- Case analysis of `App.normalize200`: its records/totalFound
projection matches `specC2RecordsTotal`, and every successful envelope it
builds has no error, carries the criteria as query, and shows exactly the
length of its records. -/
theorem App.normalize200_spec (criteria : String) (data : Json) :
    recTot (App.normalize200 criteria data) = specC2RecordsTotal data ∧
    ∀ env, App.normalize200 criteria data = Except.ok env →
      env.error = none ∧ env.query = some criteria ∧
      env.shown = pyLen env.results := by
  cases data with
  | null => exact ⟨rfl, fun env h => nomatch h⟩
  | bool b => exact ⟨rfl, fun env h => nomatch h⟩
  | num n => exact ⟨rfl, fun env h => nomatch h⟩
  | str s =>
    cases hc : strHasSub "response" s with
    | true =>
      refine ⟨?_, fun env h => ?_⟩
      · simp [App.normalize200, pyContains, pySubscript, hc, recTot,
          specC2RecordsTotal]
      · simp [App.normalize200, pyContains, pySubscript, hc] at h
    | false =>
      cases hd : strHasSub "docs" s with
      | true =>
        refine ⟨?_, fun env h => ?_⟩
        · simp [App.normalize200, pyContains, pySubscript, hc, hd, recTot,
            specC2RecordsTotal]
        · simp [App.normalize200, pyContains, pySubscript, hc, hd] at h
      | false =>
        refine ⟨?_, fun env h => ?_⟩
        · simp [App.normalize200, pyContains, hc, hd, recTot,
            specC2RecordsTotal]
        · simp [App.normalize200, pyContains, hc, hd] at h
          subst h
          simp [pyLen]
  | arr xs =>
    cases hc : xs.any (fun x => jsonEqStr x "response") with
    | true =>
      refine ⟨?_, fun env h => ?_⟩
      · simp [App.normalize200, pyContains, pySubscript, hc, recTot,
          specC2RecordsTotal]
      · simp [App.normalize200, pyContains, pySubscript, hc] at h
    | false =>
      cases hd : xs.any (fun x => jsonEqStr x "docs") with
      | true =>
        refine ⟨?_, fun env h => ?_⟩
        · simp [App.normalize200, pyContains, pySubscript, hc, hd, recTot,
            specC2RecordsTotal]
        · simp [App.normalize200, pyContains, pySubscript, hc, hd] at h
      | false =>
        refine ⟨?_, fun env h => ?_⟩
        · simp [App.normalize200, pyContains, hc, hd, recTot,
            specC2RecordsTotal]
        · simp [App.normalize200, pyContains, hc, hd] at h
          subst h
          simp [pyLen]
  | obj kvs =>
    cases hr : kvs.lookup "response" with
    | some r =>
      cases r with
      | obj rkvs =>
        cases hl : pyLen ((rkvs.lookup "docs").getD (Json.arr [])) with
        | some n =>
          refine ⟨?_, fun env h => ?_⟩
          · simp [App.normalize200, pyContains, pySubscript, pyGet, hr, hl,
              recTot, specC2RecordsTotal]
          · simp [App.normalize200, pyContains, pySubscript, pyGet, hr, hl] at h
            subst h
            simp [hl]
        | none =>
          refine ⟨?_, fun env h => ?_⟩
          · simp [App.normalize200, pyContains, pySubscript, pyGet, hr, hl,
              recTot, specC2RecordsTotal]
          · simp [App.normalize200, pyContains, pySubscript, pyGet, hr, hl] at h
      | null =>
        refine ⟨?_, fun env h => ?_⟩
        · simp [App.normalize200, pyContains, pySubscript, pyGet, hr, recTot,
            specC2RecordsTotal]
        · simp [App.normalize200, pyContains, pySubscript, pyGet, hr] at h
      | bool b =>
        refine ⟨?_, fun env h => ?_⟩
        · simp [App.normalize200, pyContains, pySubscript, pyGet, hr, recTot,
            specC2RecordsTotal]
        · simp [App.normalize200, pyContains, pySubscript, pyGet, hr] at h
      | num n =>
        refine ⟨?_, fun env h => ?_⟩
        · simp [App.normalize200, pyContains, pySubscript, pyGet, hr, recTot,
            specC2RecordsTotal]
        · simp [App.normalize200, pyContains, pySubscript, pyGet, hr] at h
      | str s =>
        refine ⟨?_, fun env h => ?_⟩
        · simp [App.normalize200, pyContains, pySubscript, pyGet, hr, recTot,
            specC2RecordsTotal]
        · simp [App.normalize200, pyContains, pySubscript, pyGet, hr] at h
      | arr ys =>
        refine ⟨?_, fun env h => ?_⟩
        · simp [App.normalize200, pyContains, pySubscript, pyGet, hr, recTot,
            specC2RecordsTotal]
        · simp [App.normalize200, pyContains, pySubscript, pyGet, hr] at h
    | none =>
      cases hd : kvs.lookup "docs" with
      | some d =>
        cases hl : pyLen d with
        | some n =>
          refine ⟨?_, fun env h => ?_⟩
          · simp [App.normalize200, pyContains, pySubscript, hr, hd, hl,
              recTot, specC2RecordsTotal]
          · simp [App.normalize200, pyContains, pySubscript, hr, hd, hl] at h
            subst h
            simp [hl]
        | none =>
          refine ⟨?_, fun env h => ?_⟩
          · simp [App.normalize200, pyContains, pySubscript, hr, hd, hl,
              recTot, specC2RecordsTotal]
          · simp [App.normalize200, pyContains, pySubscript, hr, hd, hl] at h
      | none =>
        refine ⟨?_, fun env h => ?_⟩
        · simp [App.normalize200, pyContains, hr, hd, recTot,
            specC2RecordsTotal, pyLen]
        · simp [App.normalize200, pyContains, hr, hd] at h
          subst h
          simp [pyLen]

/-- Shape of every envelope `App.handleResponse` produces: a successful
envelope carries the criteria as query and shows its records' length; an
error envelope omits both fields and has empty records and zero total. -/
theorem App.handleResponse_shape (criteria : String) (t : TransportOutcome) :
    ((App.handleResponse criteria t).error = none →
      (App.handleResponse criteria t).query = some criteria ∧
      (App.handleResponse criteria t).shown =
        pyLen (App.handleResponse criteria t).results) ∧
    ((App.handleResponse criteria t).error ≠ none →
      (App.handleResponse criteria t).shown = none ∧
      (App.handleResponse criteria t).query = none ∧
      (App.handleResponse criteria t).results = Json.arr [] ∧
      (App.handleResponse criteria t).total = Json.num 0) := by
  cases t with
  | netFail msg =>
    refine ⟨fun h => ?_, fun _ => ⟨rfl, rfl, rfl, rfl⟩⟩
    simp [App.handleResponse] at h
  | httpResp status body text =>
    by_cases hs : status = 200
    · subst hs
      cases body with
      | error msg =>
        exact ⟨fun h => by simp [App.handleResponse] at h,
               fun _ => by simp [App.handleResponse]⟩
      | ok data =>
        cases hn : App.normalize200 criteria data with
        | ok env =>
          have hsh := (App.normalize200_spec criteria data).2 env hn
          have heq : App.handleResponse criteria
              (.httpResp 200 (.ok data) text) = env := by
            simp [App.handleResponse, hn]
          rw [heq]
          exact ⟨fun _ => ⟨hsh.2.1, hsh.2.2⟩, fun h => absurd hsh.1 h⟩
        | error msg =>
          exact ⟨fun h => by simp [App.handleResponse, hn] at h,
                 fun _ => by simp [App.handleResponse, hn]⟩
    · exact ⟨fun h => by simp [App.handleResponse, hs] at h,
             fun _ => by simp [App.handleResponse, hs]⟩

/-- When every keyword strips to the empty string, the route's filtered
keyword list is empty. -/
theorem stripped_filter_nil (keywords : List String)
    (h : ∀ kw ∈ keywords, pyStrip kw = "") :
    (keywords.map pyStrip).filter (fun s => !s.isEmpty) = [] := by
  induction keywords with
  | nil => rfl
  | cons a as ih =>
    have ha : pyStrip a = "" := h a (List.mem_cons_self a as)
    simp only [List.map_cons, List.filter, ha]
    exact ih fun kw hk => h kw (List.mem_cons_of_mem a hk)

/-- C1 fails on the code: with keywords `["a", "b"]` and the empty-string
operator, the claim predicts AND-joined clauses, but the built criteria
is OR-joined (the code takes the AND path only when the operator
uppercases to `"AND"`). -/
theorem C1_counterexample :
    App.buildCriteria ["a", "b"] "" = "*:a* OR *:b*" ∧
    App.buildCriteria ["a", "b"] "" ≠ "*:a* AND *:b*" :=
  ⟨rfl, by decide⟩

/-- C1 amended: the Query Builder joins clauses with AND exactly when the
operator is `"AND"` case-insensitively; every other operator string
(including `"or"`, `""`, and unrecognized values) yields OR-joined
clauses, and a null operator raises an `AttributeError` that escapes
`search_uspto_dsapi` instead of yielding any clauses. -/
theorem C1_amended (kws : List String) (op : String) (l : Int)
    (u : FormData → TransportOutcome) :
    (pyUpper op = "AND" →
      App.buildCriteria kws op = String.intercalate " AND " (clauses kws)) ∧
    (pyUpper op ≠ "AND" →
      App.buildCriteria kws op = String.intercalate " OR " (clauses kws)) ∧
    (kws ≠ [] → App.search_uspto_dsapi kws none (some l) u =
      Except.error "AttributeError: NoneType object has no attribute upper") := by
  refine ⟨fun h => by simp [App.buildCriteria, clauses, h],
          fun h => by simp [App.buildCriteria, clauses, h],
          fun h => ?_⟩
  cases kws with
  | nil => exact absurd rfl h
  | cons a as => rfl

/-- Witness for C1 amended at concrete inputs: `"Or"` resolves to the
OR join. -/
theorem C1_witness :
    App.buildCriteria ["alpha", "beta"] "Or" =
      String.intercalate " OR " (clauses ["alpha", "beta"]) :=
  (C1_amended ["alpha", "beta"] "Or" 0 (fun _ => .netFail "w")).2.1 (by decide)

/-- C2 fails on the code: for the 200-status body
`{"response": {"docs": 5, "numFound": 3}}` the claim predicts records `5`
and totalFound `3`, but `len(5)` raises inside the result construction,
the exception handler catches it, and the call resolves to the error
envelope with records `[]` and totalFound `0`. -/
theorem C2_counterexample :
    (App.handleResponse "*:a*" (.httpResp 200 (.ok (Json.obj [("response",
        Json.obj [("docs", Json.num 5), ("numFound", Json.num 3)])])) "")).results
      = Json.arr [] ∧
    (App.handleResponse "*:a*" (.httpResp 200 (.ok (Json.obj [("response",
        Json.obj [("docs", Json.num 5), ("numFound", Json.num 3)])])) "")).total
      = Json.num 0 ∧
    Json.arr ([] : List Json) ≠ Json.num 5 ∧ Json.num 0 ≠ Json.num 3 :=
  ⟨rfl, rfl, by simp, by simp⟩

/-- C2 amended: for every 200-status JSON body, the records/totalFound
the call resolves to follow the claim's branch precedence with two
provisos the code forces: the `response` branch applies as described only
when the `response` value is a JSON object, and whenever the selected
docs value has no length (a number, boolean or null) the call instead
resolves to records `[]` and totalFound `0` (via the exception
handler) — `specC2RecordsTotal` states exactly this. -/
theorem C2_amended (criteria text : String) (data : Json) :
    ((App.handleResponse criteria (.httpResp 200 (.ok data) text)).results,
     (App.handleResponse criteria (.httpResp 200 (.ok data) text)).total)
      = specC2RecordsTotal data := by
  have h := (App.normalize200_spec criteria data).1
  cases hn : App.normalize200 criteria data with
  | ok env =>
    rw [hn] at h
    simp only [recTot] at h
    simpa [App.handleResponse, hn] using h
  | error msg =>
    rw [hn] at h
    simp only [recTot] at h
    simpa [App.handleResponse, hn] using h

/-- C3 fails on the code: requesting limit 50000 transmits rows `"10000"`
on the web path but rows `"50000"` on the interactive path, which does
not clamp. -/
theorem C3_counterexample :
    (Script.formOf "a" 50000).rows = "50000" ∧
    (Script.formOf "a" 50000).rows ≠ "10000" ∧
    (App.formOf "*:a*" 50000).rows = "10000" :=
  ⟨rfl, by decide, rfl⟩

/-- C3 amended: the web entry point clamps the transmitted rows to the
upstream maximum 10000 (`min(limit, 10000)`); the interactive entry
point transmits the requested limit unclamped, so the 50000→10000
clamping holds only on the web path. -/
theorem C3_amended (c kw : String) (l : Int) :
    (10000 ≤ l → (App.formOf c l).rows = "10000") ∧
    (l ≤ 10000 → (App.formOf c l).rows = toString l) ∧
    (Script.formOf kw l).rows = toString l := by
  refine ⟨fun h => ?_, fun h => ?_, rfl⟩
  · simp only [App.formOf, min_eq_right h]
    rfl
  · simp only [App.formOf, min_eq_left h]

/-- Witness for C3 amended at limit 50000: the web path transmits rows
`"10000"`, the interactive path `"50000"`. -/
theorem C3_witness :
    (App.formOf "*:a*" 50000).rows = "10000" ∧
    (Script.formOf "a" 50000).rows = toString (50000 : Int) :=
  ⟨(C3_amended "*:a*" "a" 50000).1 (by norm_num),
   (C3_amended "*:a*" "a" 50000).2.2⟩

/-- C4 confirmed: every non-2xx HTTP status resolves to the envelope
whose error carries the status code and the body text verbatim, with
empty records and zero total; and for string operator and integer limit
the search always returns a value (no exception crosses the transport
boundary). -/
theorem C4_thm (criteria text : String) (status : Nat)
    (body : Except String Json) (h : status < 200 ∨ 300 ≤ status) :
    App.handleResponse criteria (.httpResp status body text) =
      { error := some ("API Error " ++ toString status ++ ": " ++ text),
        results := Json.arr [], total := Json.num 0,
        shown := none, query := none } ∧
    ∀ (kws : List String) (op : String) (l : Int)
      (u : FormData → TransportOutcome),
      ∃ env, App.search_uspto_dsapi kws (some op) (some l) u =
        Except.ok env := by
  constructor
  · have hne : ¬ status = 200 := by omega
    simp [App.handleResponse, hne]
  · intro kws op l u
    cases kws with
    | nil => exact ⟨_, rfl⟩
    | cons a as => exact ⟨_, rfl⟩

/-- Witness for C4 at the spec's own example: a 500 response with body
`"internal error"`. -/
theorem C4_witness :
    App.handleResponse "*:a*" (.httpResp 500 (.ok Json.null) "internal error") =
      { error := some "API Error 500: internal error",
        results := Json.arr [], total := Json.num 0,
        shown := none, query := none } :=
  (C4_thm "*:a*" "internal error" 500 (.ok Json.null) (by omega)).1

/-- C5 fails on the code: with a null operator the attribute access
`operator.upper()` happens outside the `try` block, so the exception
escapes `search_uspto_dsapi` instead of resolving to a SearchResult. -/
theorem C5_counterexample :
    App.search_uspto_dsapi ["a"] none (some 10)
        (fun _ => .netFail "connection refused") =
      Except.error "AttributeError: NoneType object has no attribute upper" :=
  rfl

/-- C5 amended: for every keyword list, string operator and integer
limit, the search returns a normal value for every transport outcome,
and connection-level failures and malformed bodies resolve to the error
envelope; only a null operator (or null limit), which the code touches
before entering the `try` block, raises out of the function. -/
theorem C5_amended (kws : List String) (op : String) (l : Int) :
    (∀ u, ∃ env, App.search_uspto_dsapi kws (some op) (some l) u =
      Except.ok env) ∧
    (kws ≠ [] → ∀ msg, App.search_uspto_dsapi kws (some op) (some l)
        (fun _ => .netFail msg) =
      Except.ok { error := some ("Error making request: " ++ msg),
                  results := Json.arr [], total := Json.num 0,
                  shown := none, query := none }) ∧
    (kws ≠ [] → ∀ msg text, App.search_uspto_dsapi kws (some op) (some l)
        (fun _ => .httpResp 200 (.error msg) text) =
      Except.ok { error := some ("Error making request: " ++ msg),
                  results := Json.arr [], total := Json.num 0,
                  shown := none, query := none }) := by
  refine ⟨fun u => ?_, fun h msg => ?_, fun h msg text => ?_⟩
  · cases kws with
    | nil => exact ⟨_, rfl⟩
    | cons a as => exact ⟨_, rfl⟩
  · cases kws with
    | nil => exact absurd rfl h
    | cons a as => rfl
  · cases kws with
    | nil => exact absurd rfl h
    | cons a as => rfl

/-- Witness for C5 amended: a concrete connection failure resolves to
the error envelope. -/
theorem C5_witness :
    App.search_uspto_dsapi ["a"] (some "AND") (some 10)
        (fun _ => .netFail "boom") =
      Except.ok { error := some "Error making request: boom",
                  results := Json.arr [], total := Json.num 0,
                  shown := none, query := none } :=
  (C5_amended ["a"] "AND" 10).2.1 (by decide) "boom"

/-- C6 confirmed: when every keyword strips to the empty string (which
covers the empty list), the route answers identically for every upstream
oracle — the transport is never consulted — with the error envelope,
empty records and zero total; the inner guard likewise answers the empty
list without consulting the transport. -/
theorem C6_thm (keywords : List String) (op : Option String) (l : Int)
    (u u' : FormData → TransportOutcome)
    (h : ∀ kw ∈ keywords, pyStrip kw = "") :
    App.search u keywords op l = App.search u' keywords op l ∧
    App.search u keywords op l =
      Except.ok { error := some "Please provide at least one keyword",
                  results := Json.arr [], total := Json.num 0,
                  shown := none, query := none } ∧
    App.search_uspto_dsapi [] op (some l) u =
      Except.ok { error := some "No keywords provided",
                  results := Json.arr [], total := Json.num 0,
                  shown := none, query := none } := by
  have hnil := stripped_filter_nil keywords h
  refine ⟨?_, ?_, rfl⟩
  · simp [App.search, hnil]
  · simp [App.search, hnil]

/-- Witness for C6 at an all-whitespace keyword list. -/
theorem C6_witness :
    App.search (fun _ => .netFail "net") ["", "   "] (some "AND") 500 =
      Except.ok { error := some "Please provide at least one keyword",
                  results := Json.arr [], total := Json.num 0,
                  shown := none, query := none } :=
  (C6_thm ["", "   "] (some "AND") 500 (fun _ => .netFail "net")
    (fun _ => .httpResp 200 (.ok Json.null) "") (by decide)).2.1

/-- C7 confirmed: for every non-empty keyword list, the built criteria is
exactly the `|K|` wildcard clauses `*:{keyword}*`, in keyword order,
joined by the resolved operator token with single spaces — a single flat
string with no grouping added and the keywords spliced in verbatim. -/
theorem C7_thm (kws : List String) (op : String) (_h : kws ≠ []) :
    App.buildCriteria kws op =
      String.intercalate (" " ++ resolvedOp op ++ " ") (clauses kws) ∧
    (clauses kws).length = kws.length := by
  constructor
  · by_cases hc : pyUpper op = "AND" <;>
      simp [App.buildCriteria, resolvedOp, clauses, hc]
  · simp [clauses]

/-- Witness for C7 at two keywords with operator `"or"`. -/
theorem C7_witness :
    App.buildCriteria ["a", "b"] "or" =
      String.intercalate (" " ++ resolvedOp "or" ++ " ") (clauses ["a", "b"]) :=
  (C7_thm ["a", "b"] "or" (by decide)).1

/-- C8 fails on the code: the error envelope a non-2xx status produces
contains neither a shown count nor a source query (both keys are absent
from the returned dict), so not every SearchResult carries them. -/
theorem C8_counterexample :
    (App.handleResponse "*:a*"
      (.httpResp 503 (.ok Json.null) "unavailable")).shown = none ∧
    (App.handleResponse "*:a*"
      (.httpResp 503 (.ok Json.null) "unavailable")).query = none ∧
    (App.handleResponse "*:a*"
      (.httpResp 503 (.ok Json.null) "unavailable")).error ≠ none :=
  ⟨rfl, rfl, by simp [App.handleResponse]⟩

/-- C8 amended: every successful envelope the search returns carries
shownCount equal to its records' length and sourceQuery equal to the
built criteria; the error envelopes omit both fields and carry empty
records and zero total. -/
theorem C8_amended (kws : List String) (op : String) (l : Int)
    (u : FormData → TransportOutcome) (env : Envelope)
    (h : App.search_uspto_dsapi kws (some op) (some l) u = Except.ok env) :
    (env.error = none →
      env.query = some (App.buildCriteria kws op) ∧
      env.shown = pyLen env.results) ∧
    (env.error ≠ none → env.shown = none ∧ env.query = none ∧
      env.results = Json.arr [] ∧ env.total = Json.num 0) := by
  cases kws with
  | nil =>
    have henv : env = { error := some "No keywords provided" } := by
      simpa [App.search_uspto_dsapi] using h.symm
    subst henv
    refine ⟨fun hc => ?_, fun _ => ⟨rfl, rfl, rfl, rfl⟩⟩
    simp at hc
  | cons a as =>
    have henv : App.handleResponse (App.buildCriteria (a :: as) op)
        (u (App.formOf (App.buildCriteria (a :: as) op) l)) = env := by
      simpa [App.search_uspto_dsapi] using h
    rw [← henv]
    exact App.handleResponse_shape (App.buildCriteria (a :: as) op)
      (u (App.formOf (App.buildCriteria (a :: as) op) l))

/-- Witness for C8 amended: the error envelope of a concrete connection
failure omits shown and query and has empty records. -/
theorem C8_witness :
    ({ error := some "Error making request: x" } : Envelope).shown = none ∧
    ({ error := some "Error making request: x" } : Envelope).query = none ∧
    ({ error := some "Error making request: x" } : Envelope).results
      = Json.arr [] ∧
    ({ error := some "Error making request: x" } : Envelope).total
      = Json.num 0 :=
  (C8_amended ["a"] "AND" 1 (fun _ => .netFail "x")
    { error := some "Error making request: x" } rfl).2 (by simp)

/-- C9 fails on the code: with the same keyword and the same requested
limit 50000, the two entry points transmit different rows values (the
web path clamps, the interactive path does not), so their search logic
is not behaviorally identical up to default limit. -/
theorem C9_counterexample :
    (App.formOf (App.buildCriteria ["a"] "AND") 50000).rows ≠
      (Script.formOf "a" 50000).rows := by decide

/-- C9 amended: the entry points differ in more than the default limit
(500 web, 10 interactive): for a single keyword both build the same
criteria string, but the web path transmits `min(limit, 10000)` as rows
while the interactive path transmits the limit unclamped; moreover the
interactive path returns a bare records value (the empty list on every
failure) rather than the web path's result envelope. -/
theorem C9_amended (kw op : String) (l : Int) :
    App.buildCriteria [kw] op = Script.criteriaOf kw ∧
    (App.formOf (App.buildCriteria [kw] op) l).rows
      = toString (min l 10000) ∧
    (Script.formOf kw l).rows = toString l ∧
    App.defaultLimit = 500 ∧ Script.defaultLimit = 10 ∧
    App.defaultLimit ≠ Script.defaultLimit ∧
    (∀ msg, Script.search_uspto_dsapi kw l (fun _ => .netFail msg)
      = Json.arr []) := by
  refine ⟨?_, rfl, rfl, rfl, rfl, by decide, fun msg => rfl⟩
  by_cases hc : pyUpper op = "AND" <;>
    simp [App.buildCriteria, Script.criteriaOf, hc, String.intercalate,
      String.intercalate.go]

/-- C10 confirmed: any status other than exactly 200 — in particular the
2xx statuses 201 and 204 — takes the error branch on the web path and
the empty-result branch on the interactive path; the success-shape
normalization runs only at status 200. -/
theorem C10_thm (criteria text kw : String) (status : Nat)
    (body : Except String Json) (l : Int) (h : status ≠ 200) :
    App.handleResponse criteria (.httpResp status body text) =
      { error := some ("API Error " ++ toString status ++ ": " ++ text),
        results := Json.arr [], total := Json.num 0,
        shown := none, query := none } ∧
    Script.search_uspto_dsapi kw l (fun _ => .httpResp status body text)
      = Json.arr [] := by
  constructor
  · simp [App.handleResponse, h]
  · simp [Script.search_uspto_dsapi, Script.formOf, h]

/-- Witness for C10 at status 201: both entry points take their error
branch even though 201 is a 2xx status. -/
theorem C10_witness :
    App.handleResponse "*:a*" (.httpResp 201 (.ok Json.null) "created") =
      { error := some "API Error 201: created",
        results := Json.arr [], total := Json.num 0,
        shown := none, query := none } ∧
    Script.search_uspto_dsapi "a" 10
      (fun _ => .httpResp 201 (.ok Json.null) "created") = Json.arr [] :=
  C10_thm "*:a*" "created" "a" 201 (.ok Json.null) 10 (by decide)
